import Mathlib

/-!
Verification development for the ACE (Agentic Context Engineering) context
lifecycle core: a shallow embedding of `ace_framework.py` (the `ContextItem`
entity, the `ACEFramework` engine with its grow-and-refine pruning) and of
`deepseek_integration.py` (the `DeepSeekCurator.curate` delta-update step).

Modelling conventions:
- Python floats are embedded as exact rationals `ℚ`; the literals `0.1`,
  `0.05`, `0.5`, ... denote the corresponding exact rationals.
- `datetime.now().isoformat()` is modelled by threading an explicit `now`
  string into every operation that stamps a timestamp.
- `Dict[str, Any]` payloads (item metadata, pattern/failure records) are
  opaque to the core logic; they are embedded as association lists over
  strings, of which the core only ever tests emptiness (`if reflections.failures:`).
- Python's `sorted(..., key=k, reverse=True)` is a stable sort, which is
  exactly: order by `k` descending with the original position as secondary
  ascending key.  We embed it by sorting the index-tagged list `ctx.enum`
  by that total order and projecting the items back out.
-/

/-- Opaque key-value bag standing in for the Python `Dict[str, Any]` payloads
(item metadata, pattern records, failure records); the core never inspects
their contents. -/
abbrev MetaDict := List (String × String)

/-- Embedding of the `ContextItem` dataclass of `ace_framework.py`. -/
structure ContextItem where
  id : String
  content : String
  category : String
  priority : ℚ
  created_at : String
  updated_at : String
  usage_count : ℕ
  effectiveness_score : ℚ
  metadata : MetaDict
  deriving Repr, DecidableEq

/-- Embedding of `ContextItem.update_effectiveness`: clamp-adjust the
effectiveness score (`+ impact * 0.1` on success, `- impact * 0.05` on
failure) and stamp `updated_at` with the current time (unconditionally,
as in the source). -/
def ContextItem.update_effectiveness (item : ContextItem) (success : Bool)
    (impact : ℚ) (now : String) : ContextItem :=
  if success then
    { item with
        effectiveness_score := min 1 (item.effectiveness_score + impact * 0.1),
        updated_at := now }
  else
    { item with
        effectiveness_score := max 0 (item.effectiveness_score - impact * 0.05),
        updated_at := now }

/-- Embedding of the `ReflectionResult` dataclass. -/
structure ReflectionResult where
  insights : List String
  patterns : List MetaDict
  failures : List MetaDict
  recommendations : List String
  context_gaps : List String
  deriving Repr, DecidableEq

/-- Construction of a fresh `ContextItem` exactly as `DeepSeekCurator.curate`
does it: only `id`, `content`, `category`, `priority` are supplied, the
remaining fields take the dataclass defaults (`usage_count = 0`,
`effectiveness_score = 0.5`, empty metadata, both timestamps = now). -/
def mkContextItem (id content category : String) (priority : ℚ) (now : String) :
    ContextItem :=
  { id := id, content := content, category := category, priority := priority,
    created_at := now, updated_at := now, usage_count := 0,
    effectiveness_score := 0.5, metadata := [] }

/-- The append loops of `DeepSeekCurator.curate`: repeatedly append one fresh
item per string, with id `tag ++ "_" ++ (current collection length) ++ "_" ++
(loop index)` — the collection length grows while the loop runs, exactly as
`len(current_context)` does in the Python loop body. -/
def appendItems (tag category : String) (priority : ℚ) (now : String) :
    List ContextItem → ℕ → List String → List ContextItem
  | ctx, _, [] => ctx
  | ctx, i, s :: rest =>
      appendItems tag category priority now
        (ctx ++ [mkContextItem (tag ++ "_" ++ toString ctx.length ++ "_" ++ toString i)
          s category priority now])
        (i + 1) rest

/-- Closed form of the items generated by one `appendItems` loop, starting
from collection length `n` and loop index `i`. -/
def genItems (tag category : String) (priority : ℚ) (now : String) :
    ℕ → ℕ → List String → List ContextItem
  | _, _, [] => []
  | n, i, s :: rest =>
      mkContextItem (tag ++ "_" ++ toString n ++ "_" ++ toString i)
          s category priority now ::
        genItems tag category priority now (n + 1) (i + 1) rest

/-- Embedding of `DeepSeekCurator.curate` (`deepseek_integration.py`):
append one "insight" item (priority 0.8) per new insight, then one
"strategy" item (priority 0.7) per recommendation, then — iff the
reflection reports failures — apply `update_effectiveness(success=False,
impact=0.5)` to every item of the resulting collection. -/
def DeepSeekCurator.curate (current_context : List ContextItem)
    (new_insights : List String) (reflections : ReflectionResult)
    (now : String) : List ContextItem :=
  let ctx1 := appendItems "insight" "insight" 0.8 now current_context 0 new_insights
  let ctx2 := appendItems "strategy" "strategy" 0.7 now ctx1 0 reflections.recommendations
  if reflections.failures = [] then ctx2
  else ctx2.map (fun it => it.update_effectiveness false 0.5 now)

/-- The sort key of `ACEFramework.refine_context`:
`x.effectiveness_score * x.priority`. -/
def itemKey (x : ContextItem) : ℚ := x.effectiveness_score * x.priority

/-- The total order realised by Python's stable `sorted(..., key=itemKey,
reverse=True)` on the index-tagged collection: key strictly greater first,
ties broken by original position. -/
abbrev refineOrder (a b : ℕ × ContextItem) : Prop :=
  itemKey b.2 < itemKey a.2 ∨ (itemKey a.2 = itemKey b.2 ∧ a.1 ≤ b.1)

instance : DecidableRel refineOrder := fun a b =>
  inferInstanceAs
    (Decidable (itemKey b.2 < itemKey a.2 ∨ (itemKey a.2 = itemKey b.2 ∧ a.1 ≤ b.1)))

instance : IsTotal (ℕ × ContextItem) refineOrder := by
  constructor
  intro a b
  rcases lt_trichotomy (itemKey a.2) (itemKey b.2) with h | h | h
  · exact Or.inr (Or.inl h)
  · rcases Nat.le_total a.1 b.1 with hn | hn
    · exact Or.inl (Or.inr ⟨h, hn⟩)
    · exact Or.inr (Or.inr ⟨h.symm, hn⟩)
  · exact Or.inl (Or.inl h)

instance : IsTrans (ℕ × ContextItem) refineOrder := by
  constructor
  intro a b c hab hbc
  rcases hab with h1 | ⟨h1, h1'⟩ <;> rcases hbc with h2 | ⟨h2, h2'⟩
  · exact Or.inl (lt_trans h2 h1)
  · exact Or.inl (h2 ▸ h1)
  · exact Or.inl (lt_of_lt_of_le h2 (le_of_eq h1.symm))
  · exact Or.inr ⟨h1.trans h2, le_trans h1' h2'⟩

/-- `max(10, len(sorted_context) // 2)` of `refine_context`. -/
def keepCount (n : ℕ) : ℕ := max 10 (n / 2)

/-- The stable descending sort of `refine_context`, on the index-tagged
collection. -/
def refineSorted (ctx : List ContextItem) : List (ℕ × ContextItem) :=
  List.insertionSort refineOrder ctx.enum

/-- The index-tagged items `refine_context` retains. -/
def retainedIdx (ctx : List ContextItem) : List (ℕ × ContextItem) :=
  (refineSorted ctx).take (keepCount ctx.length)

/-- The index-tagged items `refine_context` discards. -/
def discardedIdx (ctx : List ContextItem) : List (ℕ × ContextItem) :=
  (refineSorted ctx).drop (keepCount ctx.length)

/-- Embedding of `ACEFramework.refine_context`: stable-sort the collection
descending by `effectiveness_score * priority` and keep the top
`max(10, n // 2)` items. -/
def ACEFramework.refine_context (ctx : List ContextItem) : List ContextItem :=
  (retainedIdx ctx).map Prod.snd

/-- An execution trace is an opaque record. -/
abbrev ExecutionTrace := MetaDict

/-- Mutable state of the `ACEFramework` engine.  The source initialises
`refinement_threshold = 0.3` but never reads it: the refinement trigger in
`curate_context` uses the literal `20`. -/
structure ACEState where
  context : List ContextItem
  execution_history : List ExecutionTrace
  refinement_threshold : ℚ
  deriving Repr, DecidableEq

/-- A curator implementation, as the engine sees it (the abstract `Curator`
class): current context, new insight strings, reflection result ↦ updated
context. -/
abbrev CuratorFn := List ContextItem → List String → ReflectionResult → List ContextItem

/-- Embedding of `ACEFramework.curate_context`: delegate to the curator with
the current context and `reflections.insights`, replace the context with the
result, refine iff the new length exceeds 20, and return the (possibly
refined) context.  (The Python method also builds a local `new_insights`
list of `ContextItem`s that it never uses; that dead code has no observable
effect and is omitted.) -/
def ACEFramework.curate_context (curator : CuratorFn) (s : ACEState)
    (reflections : ReflectionResult) : List ContextItem × ACEState :=
  let newContext := curator s.context reflections.insights reflections
  let finalContext :=
    if 20 < newContext.length then ACEFramework.refine_context newContext
    else newContext
  (finalContext, { s with context := finalContext })

/-! ### The curation append loop in closed form -/

/-- Running one `appendItems` loop appends exactly the `genItems` closed
form: the id of the item produced at loop index `i` records the collection
length `ctx.length + i` at the moment it is appended. -/
theorem appendItems_eq_genItems (tag category : String) (priority : ℚ) (now : String)
    (strs : List String) :
    ∀ (ctx : List ContextItem) (i : ℕ),
      appendItems tag category priority now ctx i strs =
        ctx ++ genItems tag category priority now ctx.length i strs := by
  induction strs with
  | nil => intro ctx i; simp [appendItems, genItems]
  | cons s rest ih =>
      intro ctx i
      simp only [appendItems, genItems, ih]
      simp [List.append_assoc]

/-- The items generated by one loop carry exactly the input strings as
contents, in order. -/
theorem genItems_map_content (tag category : String) (priority : ℚ) (now : String)
    (strs : List String) :
    ∀ n i : ℕ,
      (genItems tag category priority now n i strs).map ContextItem.content = strs := by
  induction strs with
  | nil => intro n i; rfl
  | cons s rest ih => intro n i; simp [genItems, mkContextItem, ih]

/-- One loop generates one item per input string. -/
theorem genItems_length (tag category : String) (priority : ℚ) (now : String)
    (strs : List String) (n i : ℕ) :
    (genItems tag category priority now n i strs).length = strs.length := by
  induction strs generalizing n i with
  | nil => rfl
  | cons s rest ih => simp [genItems, ih]

/-- Every item generated by one loop has the loop's category and priority and
the default effectiveness score 0.5. -/
theorem genItems_fields (tag category : String) (priority : ℚ) (now : String)
    (strs : List String) :
    ∀ n i : ℕ, ∀ x ∈ genItems tag category priority now n i strs,
      x.category = category ∧ x.priority = priority ∧ x.effectiveness_score = 0.5 := by
  induction strs with
  | nil => intro n i x hx; simp [genItems] at hx
  | cons s rest ih =>
      intro n i x hx
      rcases (List.mem_cons).mp hx with h | h
      · subst h; exact ⟨rfl, rfl, rfl⟩
      · exact ih (n + 1) (i + 1) x h

/-- `DeepSeekCurator.curate` in closed form: the original collection, then
the generated insight items, then the generated strategy items, with the
global failure penalty mapped over everything iff failures were reported. -/
theorem curate_eq (ctx : List ContextItem) (ins : List String) (r : ReflectionResult)
    (now : String) :
    DeepSeekCurator.curate ctx ins r now =
      (if r.failures = []
       then ctx ++ genItems "insight" "insight" 0.8 now ctx.length 0 ins ++
         genItems "strategy" "strategy" 0.7 now (ctx.length + ins.length) 0 r.recommendations
       else (ctx ++ genItems "insight" "insight" 0.8 now ctx.length 0 ins ++
           genItems "strategy" "strategy" 0.7 now (ctx.length + ins.length) 0
             r.recommendations).map
         (fun it => it.update_effectiveness false 0.5 now)) := by
  unfold DeepSeekCurator.curate
  simp only [appendItems_eq_genItems, List.length_append, genItems_length,
    List.append_assoc]

/-! ### Facts about the refinement sort -/

/-- The refinement sort permutes the index-tagged collection. -/
theorem refineSorted_perm (ctx : List ContextItem) :
    List.Perm (refineSorted ctx) ctx.enum :=
  List.perm_insertionSort refineOrder ctx.enum

/-- The refinement sort is sorted for the descending-key, index-tie-break
order. -/
theorem refineSorted_pairwise (ctx : List ContextItem) :
    List.Pairwise refineOrder (refineSorted ctx) :=
  List.sorted_insertionSort refineOrder ctx.enum

/-- Sorting does not change the collection's size. -/
theorem refineSorted_length (ctx : List ContextItem) :
    (refineSorted ctx).length = ctx.length := by
  rw [(refineSorted_perm ctx).length_eq, List.enum_length]

/-- Dropping the index tags of the sorted collection yields a permutation of
the original collection. -/
theorem mapSnd_refineSorted_perm (ctx : List ContextItem) :
    List.Perm ((refineSorted ctx).map Prod.snd) ctx := by
  have h := (refineSorted_perm ctx).map Prod.snd
  rwa [List.enum_map_snd] at h

/-- The original positions recorded in the sorted collection are pairwise
distinct. -/
theorem refineSorted_nodup_fst (ctx : List ContextItem) :
    ((refineSorted ctx).map Prod.fst).Nodup :=
  ((refineSorted_perm ctx).map Prod.fst).symm.nodup (List.nodup_enum_map_fst ctx)

/-- The refined collection is a sub-multiset of the input collection. -/
theorem refine_subperm (ctx : List ContextItem) :
    List.Subperm (ACEFramework.refine_context ctx) ctx := by
  have h1 : List.Sublist ((retainedIdx ctx).map Prod.snd)
      ((refineSorted ctx).map Prod.snd) :=
    (List.take_sublist _ _).map Prod.snd
  exact h1.subperm.trans (mapSnd_refineSorted_perm ctx).subperm

/-! ### The claims -/

/-- C1: for every item and every impact ≥ 0, `update_effectiveness` sets the
score to exactly `min(1.0, s + impact * 0.1)` on success and to exactly
`max(0.0, s - impact * 0.05)` on failure, and the reward step is twice the
penalty step for equal impact. -/
theorem claim_C1 (item : ContextItem) (impact : ℚ) (now : String)
    (h : 0 ≤ impact) :
    (item.update_effectiveness true impact now).effectiveness_score =
        min 1 (item.effectiveness_score + impact * 0.1) ∧
    (item.update_effectiveness false impact now).effectiveness_score =
        max 0 (item.effectiveness_score - impact * 0.05) ∧
    impact * 0.1 = 2 * (impact * 0.05) := by
  refine ⟨rfl, rfl, by ring⟩

/-- C3: `curate_context` replaces the engine's knowledge with the curator's
result, refines if and only if the resulting length exceeds 20, returns the
(possibly refined) knowledge, and leaves the rest of the engine state
untouched. -/
theorem claim_C3 (curator : CuratorFn) (s : ACEState) (r : ReflectionResult) :
    (ACEFramework.curate_context curator s r).1 =
      (ACEFramework.curate_context curator s r).2.context ∧
    (ACEFramework.curate_context curator s r).2.context =
      (if 20 < (curator s.context r.insights r).length
       then ACEFramework.refine_context (curator s.context r.insights r)
       else curator s.context r.insights r) ∧
    (ACEFramework.curate_context curator s r).2.execution_history =
      s.execution_history ∧
    (ACEFramework.curate_context curator s r).2.refinement_threshold =
      s.refinement_threshold :=
  ⟨rfl, rfl, rfl, rfl⟩

/-- C4: `refine_context` retains exactly `min(n, max(10, n / 2))` items of a
collection of size n (so exactly 10 of 21), the retained items form a
sub-multiset of the input, and on a collection of at most 10 items (such as
size 8) every item is retained — no item is discarded, the collection is
merely re-sorted. -/
theorem claim_C4 (ctx : List ContextItem) :
    (ACEFramework.refine_context ctx).length =
      min ctx.length (max 10 (ctx.length / 2)) ∧
    List.Subperm (ACEFramework.refine_context ctx) ctx ∧
    (ctx.length ≤ 10 → List.Perm (ACEFramework.refine_context ctx) ctx) := by
  refine ⟨?_, refine_subperm ctx, ?_⟩
  · show ((retainedIdx ctx).map Prod.snd).length = _
    rw [List.length_map]
    unfold retainedIdx
    rw [List.length_take, refineSorted_length, min_comm]
    rfl
  · intro hle
    have htake : (refineSorted ctx).take (keepCount ctx.length) = refineSorted ctx :=
      List.take_of_length_le
        (by rw [refineSorted_length]; exact le_trans hle (le_max_left 10 _))
    show List.Perm ((retainedIdx ctx).map Prod.snd) ctx
    unfold retainedIdx
    rw [htake]
    exact mapSnd_refineSorted_perm ctx

/-- C5: after refinement, every retained item's key
`effectiveness_score * priority` is at least every discarded item's key, and
on a tie the earlier-inserted (smaller original position) item is the
retained one. -/
theorem claim_C5 (ctx : List ContextItem) (a b : ℕ × ContextItem)
    (ha : a ∈ retainedIdx ctx) (hb : b ∈ discardedIdx ctx) :
    itemKey b.2 ≤ itemKey a.2 ∧ (itemKey a.2 = itemKey b.2 → a.1 < b.1) := by
  have hsorted := refineSorted_pairwise ctx
  rw [← List.take_append_drop (keepCount ctx.length) (refineSorted ctx)] at hsorted
  have hrel : refineOrder a b := (List.pairwise_append.mp hsorted).2.2 a ha b hb
  have hnd := refineSorted_nodup_fst ctx
  rw [← List.take_append_drop (keepCount ctx.length) (refineSorted ctx),
    List.map_append] at hnd
  have hdisj := (List.nodup_append.mp hnd).2.2
  constructor
  · rcases hrel with h | ⟨h, _⟩
    · exact le_of_lt h
    · exact le_of_eq h.symm
  · intro heq
    rcases hrel with h | ⟨_, hle⟩
    · rw [heq] at h; exact absurd h (lt_irrefl _)
    · rcases lt_or_eq_of_le hle with hlt | heqn
      · exact hlt
      · exact absurd (heqn ▸ List.mem_map_of_mem Prod.fst hb)
          (hdisj (List.mem_map_of_mem Prod.fst ha))

/-- C6: for a score within [0, 1] and impact ≥ 0, a success update never
decreases the score and keeps it at most 1, and a failure update never
increases the score and keeps it at least 0; so the score stays in [0, 1]. -/
theorem claim_C6 (item : ContextItem) (impact : ℚ) (now : String)
    (h0 : 0 ≤ item.effectiveness_score) (h1 : item.effectiveness_score ≤ 1)
    (himp : 0 ≤ impact) :
    (item.effectiveness_score ≤
        (item.update_effectiveness true impact now).effectiveness_score ∧
      (item.update_effectiveness true impact now).effectiveness_score ≤ 1 ∧
      0 ≤ (item.update_effectiveness true impact now).effectiveness_score) ∧
    ((item.update_effectiveness false impact now).effectiveness_score ≤
        item.effectiveness_score ∧
      0 ≤ (item.update_effectiveness false impact now).effectiveness_score ∧
      (item.update_effectiveness false impact now).effectiveness_score ≤ 1) := by
  have hstep : (0 : ℚ) ≤ impact * 0.1 := by positivity
  have hstep' : (0 : ℚ) ≤ impact * 0.05 := by positivity
  have hsucc : (item.update_effectiveness true impact now).effectiveness_score =
      min 1 (item.effectiveness_score + impact * 0.1) := rfl
  have hfail : (item.update_effectiveness false impact now).effectiveness_score =
      max 0 (item.effectiveness_score - impact * 0.05) := rfl
  rw [hsucc, hfail]
  refine ⟨⟨le_min h1 (by linarith), min_le_left _ _, le_min (by norm_num) (by linarith)⟩,
    max_le h0 (by linarith), le_max_left _ _, max_le (by norm_num) (by linarith)⟩

/-- C7: from score 0.5, one success update with impact 1.0 yields exactly
0.6, and a subsequent failure update with impact 1.0 yields exactly 0.55. -/
theorem claim_C7 (item : ContextItem) (h : item.effectiveness_score = 0.5) :
    (item.update_effectiveness true 1 "t1").effectiveness_score = 0.6 ∧
    ((item.update_effectiveness true 1 "t1").update_effectiveness false 1
        "t2").effectiveness_score = 0.55 := by
  have h1 : (item.update_effectiveness true 1 "t1").effectiveness_score =
      min 1 (item.effectiveness_score + 1 * 0.1) := rfl
  have h6 : (item.update_effectiveness true 1 "t1").effectiveness_score = 0.6 := by
    rw [h1, h]; norm_num
  refine ⟨h6, ?_⟩
  have h2 : ((item.update_effectiveness true 1 "t1").update_effectiveness false 1
      "t2").effectiveness_score =
      max 0 ((item.update_effectiveness true 1 "t1").effectiveness_score - 1 * 0.05) := rfl
  rw [h2, h6]; norm_num

/-- C9 (amended): `update_effectiveness` always stamps `updated_at` with the
current time — whether or not the clamped score differs from the prior
score — and modifies no field other than `effectiveness_score` and
`updated_at`. -/
theorem claim_C9 (item : ContextItem) (success : Bool) (impact : ℚ)
    (now : String) :
    (item.update_effectiveness success impact now).updated_at = now ∧
    (item.update_effectiveness success impact now).id = item.id ∧
    (item.update_effectiveness success impact now).content = item.content ∧
    (item.update_effectiveness success impact now).category = item.category ∧
    (item.update_effectiveness success impact now).priority = item.priority ∧
    (item.update_effectiveness success impact now).created_at = item.created_at ∧
    (item.update_effectiveness success impact now).usage_count = item.usage_count ∧
    (item.update_effectiveness success impact now).metadata = item.metadata := by
  cases success <;> exact ⟨rfl, rfl, rfl, rfl, rfl, rfl, rfl, rfl⟩

/-- C10: the refined collection is a sub-multiset of the input (its items
are input items, unmodified) and is sorted in descending
`effectiveness_score * priority` order — also when every item is retained. -/
theorem claim_C10 (ctx : List ContextItem) :
    List.Subperm (ACEFramework.refine_context ctx) ctx ∧
    List.Pairwise (fun a b : ContextItem => itemKey b ≤ itemKey a)
      (ACEFramework.refine_context ctx) := by
  refine ⟨refine_subperm ctx, ?_⟩
  have h1 : List.Pairwise refineOrder (retainedIdx ctx) :=
    (refineSorted_pairwise ctx).sublist (List.take_sublist _ _)
  show List.Pairwise _ ((retainedIdx ctx).map Prod.snd)
  rw [List.pairwise_map]
  refine h1.imp ?_
  intro a b hab
  rcases hab with h | ⟨h, _⟩
  · exact le_of_lt h
  · exact le_of_eq h.symm

/-- C2: `curate` returns the input collection with one new "insight" item
(priority 0.8, default effectiveness 0.5) appended per insight, followed by
one new "strategy" item (priority 0.7, default effectiveness 0.5) per
recommendation; iff the reflection reports failures, every item of the
resulting collection — the just-appended ones included — then has its score
replaced by `max(0.0, priorScore - 0.025)` (the `impact = 0.5` failure
update). -/
theorem claim_C2 (ctx : List ContextItem) (ins : List String)
    (r : ReflectionResult) (now : String) :
    ∃ insItems recItems : List ContextItem,
      insItems.map ContextItem.content = ins ∧
      (∀ x ∈ insItems, x.category = "insight" ∧ x.priority = 0.8 ∧
        x.effectiveness_score = 0.5) ∧
      recItems.map ContextItem.content = r.recommendations ∧
      (∀ x ∈ recItems, x.category = "strategy" ∧ x.priority = 0.7 ∧
        x.effectiveness_score = 0.5) ∧
      DeepSeekCurator.curate ctx ins r now =
        (if r.failures = []
         then ctx ++ insItems ++ recItems
         else (ctx ++ insItems ++ recItems).map
           (fun it =>
             { it with
                 effectiveness_score := max 0 (it.effectiveness_score - 0.025),
                 updated_at := now })) := by
  refine ⟨genItems "insight" "insight" 0.8 now ctx.length 0 ins,
    genItems "strategy" "strategy" 0.7 now (ctx.length + ins.length) 0
      r.recommendations,
    genItems_map_content "insight" "insight" 0.8 now ins ctx.length 0,
    fun x hx => genItems_fields "insight" "insight" 0.8 now ins ctx.length 0 x hx,
    genItems_map_content "strategy" "strategy" 0.7 now r.recommendations _ 0,
    fun x hx =>
      genItems_fields "strategy" "strategy" 0.7 now r.recommendations _ 0 x hx,
    ?_⟩
  rw [curate_eq]
  have hfun : (fun it : ContextItem => it.update_effectiveness false 0.5 now) =
      (fun it : ContextItem =>
        { it with
            effectiveness_score := max 0 (it.effectiveness_score - 0.025),
            updated_at := now }) := by
    funext it
    show ({ it with
        effectiveness_score := max 0 (it.effectiveness_score - 0.5 * 0.05),
        updated_at := now } : ContextItem) = _
    have hq : (0.5 : ℚ) * 0.05 = 0.025 := by norm_num
    rw [hq]
  rw [hfun]

/-! ### Concrete inputs for witnesses and counterexamples -/

/-- A representative concrete item with the default score 0.5. -/
def sampleItem : ContextItem :=
  { id := "baseline_1", content := "Home advantage", category := "pattern",
    priority := 0.9, created_at := "t0", updated_at := "t0", usage_count := 0,
    effectiveness_score := 0.5, metadata := [] }

/-- A family of items that all tie on `effectiveness_score * priority`. -/
def tiedItem (i : ℕ) : ContextItem :=
  mkContextItem ("c" ++ toString i) "x" "insight" 0.8 "t0"

/-- Eleven tied items: refinement keeps ten and discards one. -/
def c5_ctx : List ContextItem := (List.range 11).map tiedItem

/-- Eight tied items: refinement discards nothing. -/
def c4_ctx : List ContextItem := (List.range 8).map tiedItem

/-- Twenty-one tied items: refinement keeps exactly ten. -/
def c4_ctx21 : List ContextItem := (List.range 21).map tiedItem

/-- Witness for C1 at a concrete item and impact 1. -/
theorem claim_C1_witness :
    (0 : ℚ) ≤ 1 ∧
    ((sampleItem.update_effectiveness true 1 "t1").effectiveness_score =
        min 1 (sampleItem.effectiveness_score + 1 * 0.1) ∧
      (sampleItem.update_effectiveness false 1 "t1").effectiveness_score =
        max 0 (sampleItem.effectiveness_score - 1 * 0.05) ∧
      (1 : ℚ) * 0.1 = 2 * (1 * 0.05)) :=
  ⟨by norm_num, claim_C1 sampleItem 1 "t1" (by norm_num)⟩

/-- Witness for C4: on the concrete 8-item collection refinement keeps all 8
items (as a permutation), and on the concrete 21-item collection it keeps
exactly 10. -/
theorem claim_C4_witness :
    c4_ctx.length ≤ 10 ∧
    (ACEFramework.refine_context c4_ctx).length = 8 ∧
    List.Perm (ACEFramework.refine_context c4_ctx) c4_ctx ∧
    (ACEFramework.refine_context c4_ctx21).length = 10 := by
  have e8 : c4_ctx.length = 8 := by simp [c4_ctx]
  have e21 : c4_ctx21.length = 21 := by simp [c4_ctx21]
  have h8 : c4_ctx.length ≤ 10 := by rw [e8]; decide
  refine ⟨h8, ?_, (claim_C4 c4_ctx).2.2 h8, ?_⟩
  · have h := (claim_C4 c4_ctx).1
    rw [e8] at h
    exact h.trans (by decide)
  · have h := (claim_C4 c4_ctx21).1
    rw [e21] at h
    exact h.trans (by decide)

/-- Witness for C5 at the concrete 11-item tied collection: the item at
original position 0 is retained, the one at position 10 is discarded, and
the tie is broken in favour of the earlier position. -/
theorem claim_C5_witness :
    (0, tiedItem 0) ∈ retainedIdx c5_ctx ∧
    (10, tiedItem 10) ∈ discardedIdx c5_ctx ∧
    (itemKey (tiedItem 10) ≤ itemKey (tiedItem 0) ∧
      (itemKey (tiedItem 0) = itemKey (tiedItem 10) → (0 : ℕ) < 10)) := by
  have ha : (0, tiedItem 0) ∈ retainedIdx c5_ctx :=
    of_decide_eq_true (by with_unfolding_all rfl)
  have hb : (10, tiedItem 10) ∈ discardedIdx c5_ctx :=
    of_decide_eq_true (by with_unfolding_all rfl)
  exact ⟨ha, hb, claim_C5 c5_ctx (0, tiedItem 0) (10, tiedItem 10) ha hb⟩

/-- Witness for C6 at a concrete item with score 0.5 and impact 1. -/
theorem claim_C6_witness :
    ((0 : ℚ) ≤ sampleItem.effectiveness_score ∧
      sampleItem.effectiveness_score ≤ 1 ∧ (0 : ℚ) ≤ 1) ∧
    ((sampleItem.effectiveness_score ≤
        (sampleItem.update_effectiveness true 1 "t1").effectiveness_score ∧
      (sampleItem.update_effectiveness true 1 "t1").effectiveness_score ≤ 1 ∧
      0 ≤ (sampleItem.update_effectiveness true 1 "t1").effectiveness_score) ∧
    ((sampleItem.update_effectiveness false 1 "t1").effectiveness_score ≤
        sampleItem.effectiveness_score ∧
      0 ≤ (sampleItem.update_effectiveness false 1 "t1").effectiveness_score ∧
      (sampleItem.update_effectiveness false 1 "t1").effectiveness_score ≤ 1)) :=
  ⟨⟨by norm_num [sampleItem], by norm_num [sampleItem], by norm_num⟩,
    claim_C6 sampleItem 1 "t1" (by norm_num [sampleItem])
      (by norm_num [sampleItem]) (by norm_num)⟩

/-- Witness for C7 at a concrete item whose score is 0.5. -/
theorem claim_C7_witness :
    sampleItem.effectiveness_score = 0.5 ∧
    ((sampleItem.update_effectiveness true 1 "t1").effectiveness_score = 0.6 ∧
      ((sampleItem.update_effectiveness true 1 "t1").update_effectiveness false 1
          "t2").effectiveness_score = 0.55) :=
  ⟨rfl, claim_C7 sampleItem rfl⟩

/-- A low-value seed item (key 0.1), as the engine's seeding interface can
install. -/
def seedItem (i : ℕ) : ContextItem :=
  { id := "s" ++ toString i, content := "seed", category := "pattern",
    priority := 1, created_at := "t0", updated_at := "t0", usage_count := 0,
    effectiveness_score := 0.1, metadata := [] }

/-- Ten seed items with pairwise-distinct ids `s0` … `s9`. -/
def c8_seed : List ContextItem := (List.range 10).map seedItem

/-- A reflection carrying eleven insights and nothing else. -/
def c8_r1 : ReflectionResult :=
  { insights := ["a0", "a1", "a2", "a3", "a4", "a5", "a6", "a7", "a8", "a9", "a10"],
    patterns := [], failures := [], recommendations := [], context_gaps := [] }

/-- A reflection carrying a single insight and nothing else. -/
def c8_r2 : ReflectionResult :=
  { insights := ["b"], patterns := [], failures := [], recommendations := [],
    context_gaps := [] }

/-- The DeepSeek curator as a `CuratorFn`, at a fixed current time. -/
def dsCuratorFn (now : String) : CuratorFn :=
  fun ctx ins r => DeepSeekCurator.curate ctx ins r now

/-- Engine state seeded with the ten seed items. -/
def c8_state0 : ACEState :=
  { context := c8_seed, execution_history := [], refinement_threshold := 0.3 }

/-- State after curating `c8_r1`: the 21-item collection crosses the
threshold, refinement keeps the ten insight items `insight_10_0` …
`insight_19_9` (their key 0.4 beats the seeds' 0.1). -/
def c8_state1 : ACEState :=
  (ACEFramework.curate_context (dsCuratorFn "t1") c8_state0 c8_r1).2

/-- Knowledge returned by the second curation: its single new item is again
given id `insight_10_0` (the collection length is back to 10), colliding
with the retained item of the same id. -/
def c8_final : List ContextItem :=
  (ACEFramework.curate_context (dsCuratorFn "t2") c8_state1 c8_r2).1

/-- C8 fails on the code: starting from a collection with pairwise-distinct
ids, one curation (which triggers refinement) followed by a second curation
produces a collection in which id `insight_10_0` occurs twice — the
generated ids are derived from the current collection length, which
refinement shrinks, so they are not fresh. -/
theorem claim_C8_failing :
    (c8_seed.map ContextItem.id).Nodup ∧
    (c8_final.map ContextItem.id).count "insight_10_0" = 2 ∧
    ¬ (c8_final.map ContextItem.id).Nodup :=
  of_decide_eq_true (by with_unfolding_all rfl)

/-- An item whose score sits at the upper clamp, with a known timestamp. -/
def c9_item : ContextItem :=
  { id := "x", content := "c", category := "pattern", priority := 1,
    created_at := "t0", updated_at := "t0", usage_count := 0,
    effectiveness_score := 1, metadata := [] }

/-- Counterexample to C9 as stated: a success update on a score already at
the clamp 1.0 leaves `effectiveness_score` unchanged yet still refreshes
`updated_at` — so `updated_at` does not change exactly when the score
changes. -/
theorem claim_C9_counterexample :
    (c9_item.update_effectiveness true 1 "t1").effectiveness_score =
      c9_item.effectiveness_score ∧
    (c9_item.update_effectiveness true 1 "t1").updated_at ≠ c9_item.updated_at :=
  of_decide_eq_true (by with_unfolding_all rfl)
